import Mathlib

/-!
Verification of the distributed-image storage handle of `src/pilib/distributedimage.h`
(the double-buffered temp-file rotation scheme of the pi2 distributed image
processing engine).

The state of `DistributedImageBase` is embedded as a Lean structure; the member
functions whose bodies appear in the header are translated directly.  Member
functions that are only declared in the header (`createTempFilenames`,
`setReadSource`, `ensureSize`, `emitReadBlock`) are modelled from the
specification; each such definition carries a doc comment starting with
`Modelled from the spec:`.  The external file codecs (`raw::read/write`,
`sequence::read/write`) are modelled as faithful stores over an explicit disk
value, which is exactly the "codecs write/read faithfully" assumption of the
specification.
-/

set_option autoImplicit false

namespace pilib

/-- Embedding of `math::Vec3c` (three `coord_t` components). -/
structure Vec3 where
  x : Int
  y : Int
  z : Int
deriving DecidableEq, Repr

/-- Embedding of `itl2::endsWith` (suffix test on file names, used by
`isRaw` and by the codec selection in `readTo`/`setData`). -/
def endsWith (str suffix : String) : Bool :=
  decide (str.data.reverse.take suffix.data.length = suffix.data.reverse)

/-- Embedding of an in-memory `itl2::Image<pixel_t>`: dimensions plus pixel
contents.  Pixel values are abstracted as integers. -/
structure Image where
  dims : Vec3
  data : List Int
deriving DecidableEq, Repr

/-- Pixel count of a dimension triple. -/
def Vec3.pixelCount (v : Vec3) : Nat :=
  (v.x * v.y * v.z).toNat

/-- Embedding of `itl2::Image::ensureSize`: reallocate when the dimensions
change (freshly allocated contents are modelled as zeroed). -/
def Image.ensureSize (img : Image) (d : Vec3) : Image :=
  if img.dims = d then img else { dims := d, data := List.replicate d.pixelCount 0 }

/-- A file persisted by one of the two external codecs: a flat raw dump or a
directory-of-slices sequence.  Reading a file with the wrong codec fails. -/
inductive FileData where
  | raw (img : Image)
  | seq (img : Image)
deriving DecidableEq, Repr

/-- The disk visible to the codecs: an association list from path to stored
file, newest binding first. -/
def Disk := List (String × FileData)

/-- Look up the current content stored at a path. -/
def Disk.find : Disk → String → Option FileData
  | [], _ => none
  | (q, v) :: rest, p => if q = p then some v else Disk.find rest p

namespace raw

/-- Modelled from the spec: the external flat-binary codec `raw::write`
(out of scope of the repository; assumed to persist the buffer faithfully). -/
def write (disk : Disk) (img : Image) (filename : String) : Disk :=
  (filename, FileData.raw img) :: disk

/-- Modelled from the spec: the external flat-binary codec `raw::read`
(assumed to return exactly what `raw::write` stored; an I/O error otherwise). -/
def read (disk : Disk) (filename : String) : Option Image :=
  match disk.find filename with
  | some (FileData.raw img) => some img
  | _ => none

end raw

namespace sequence

/-- Modelled from the spec: the external image-sequence codec
`sequence::write` (assumed to persist the buffer faithfully). -/
def write (disk : Disk) (img : Image) (filename : String) : Disk :=
  (filename, FileData.seq img) :: disk

/-- Modelled from the spec: the external image-sequence codec
`sequence::read` (assumed to return exactly what `sequence::write` stored). -/
def read (disk : Disk) (filename : String) : Option Image :=
  match disk.find filename with
  | some (FileData.seq img) => some img
  | _ => none

end sequence

/-- The fields of `pilib::DistributedImageBase`. -/
structure DistributedImageBase where
  dims : Vec3
  name : String
  readSource : String
  writeTarget : String
  tempFilename1 : String
  tempFilename2 : String
  isNewImage : Bool
  dataTypeStr : String
deriving DecidableEq, Repr

namespace DistributedImageBase

/-- `isSavedToDisk`: `return !isNewImage;`. -/
def isSavedToDisk (s : DistributedImageBase) : Bool :=
  !s.isNewImage

/-- `currentReadSource`: `return readSource;`. -/
def currentReadSource (s : DistributedImageBase) : String :=
  s.readSource

/-- `currentWriteTarget`: `return writeTarget;`. -/
def currentWriteTarget (s : DistributedImageBase) : String :=
  s.writeTarget

/-- `pixelCount`: `return dims.x * dims.y * dims.z;` (as `coord_t`). -/
def pixelCount (s : DistributedImageBase) : Int :=
  s.dims.x * s.dims.y * s.dims.z

/-- Modelled from the spec: the body of
`DistributedImageBase::setReadSource` is not under `src/` (only its
declaration).  Per the spec it rebinds `readSource` and updates `isNewImage`
to false once a non-empty source is bound; binding the empty string (the
no-source constructor) leaves `isNewImage` unchanged. -/
def setReadSource (s : DistributedImageBase) (filename : String) : DistributedImageBase :=
  { s with readSource := filename
         , isNewImage := if filename = "" then s.isNewImage else false }

/-- Modelled from the spec: the body of
`DistributedImageBase::createTempFilenames` is not under `src/` (only its
declaration and doc comment).  Per the header doc comment, if the source file
is raw the temp files are raw, otherwise each temp location is a folder
holding an image sequence; per the spec the two temp locations are named
deterministically from the handle's name and a generation suffix, and the
write target is established on the first temp slot. -/
def createTempFilenames (s : DistributedImageBase) : DistributedImageBase :=
  if endsWith s.readSource ".raw" then
    { s with tempFilename1 := "./tmp_images/" ++ s.name ++ "-1" ++ ".raw"
           , tempFilename2 := "./tmp_images/" ++ s.name ++ "-2" ++ ".raw"
           , writeTarget := "./tmp_images/" ++ s.name ++ "-1" ++ ".raw" }
  else
    { s with tempFilename1 := "./tmp_images/" ++ s.name ++ "-1"
           , tempFilename2 := "./tmp_images/" ++ s.name ++ "-2"
           , writeTarget := "./tmp_images/" ++ s.name ++ "-1" }

/-- The constructor taking a source file name: initializes `dims`, `name`,
`dataTypeStr`, then runs `setReadSource(sourceFilename)` and
`createTempFilenames()`.  The `isNewImage` field, which C++ leaves
uninitialized here, starts `true` per the spec data model ("true until the
handle's data has been durably established"). -/
def mk0 (name : String) (width height depth : Int) (dataTypeStr : String)
    (sourceFilename : String) : DistributedImageBase :=
  createTempFilenames <| setReadSource
    { dims := ⟨width, height, depth⟩
    , name := name
    , readSource := ""
    , writeTarget := ""
    , tempFilename1 := ""
    , tempFilename2 := ""
    , isNewImage := true
    , dataTypeStr := dataTypeStr } sourceFilename

/-- The delegating constructor with no source file: forwards `""` as
`sourceFilename`. -/
def mkNoSource (name : String) (width height depth : Int)
    (dataTypeStr : String) : DistributedImageBase :=
  mk0 name width height depth dataTypeStr ""

/-- `writeComplete`: `setReadSource(writeTarget);`. -/
def writeComplete (s : DistributedImageBase) : DistributedImageBase :=
  setReadSource s s.writeTarget

/-- `newWriteTarget`: swap `writeTarget` to `tempFilename2` when it equals
`tempFilename1`, and to `tempFilename1` otherwise. -/
def newWriteTarget (s : DistributedImageBase) : DistributedImageBase :=
  if s.writeTarget = s.tempFilename1 then
    { s with writeTarget := s.tempFilename2 }
  else
    { s with writeTarget := s.tempFilename1 }

/-- `savedToTemp`: `currentReadSource() == tempFilename1 || currentReadSource() == tempFilename2`. -/
def savedToTemp (s : DistributedImageBase) : Bool :=
  currentReadSource s = s.tempFilename1 || currentReadSource s = s.tempFilename2

/-- Modelled from the spec: the body of `DistributedImageBase::ensureSize` is
not under `src/` (only its declaration).  Per the spec it declares the new
dimensions and re-derives the temp locations consistent with the storage
format when the size actually changes. -/
def ensureSize (s : DistributedImageBase) (newDimensions : Vec3) : DistributedImageBase :=
  if s.dims = newDimensions then s
  else createTempFilenames { s with dims := newDimensions }

/-- `isRaw`: `endsWith(currentReadSource(), ".raw")`. -/
def isRaw (s : DistributedImageBase) : Bool :=
  endsWith (currentReadSource s) ".raw"

/-- `isSequence`: `!isRaw()`. -/
def isSequence (s : DistributedImageBase) : Bool :=
  !isRaw s

/-- Modelled from the spec: the body of
`DistributedImageBase::emitReadBlock` is not under `src/` (only its `const`
declaration and doc comment).  Per the spec it produces an instruction
referencing the handle's name, the read source path, the position and the
size; when `dataNeeded` is false it is a placeholder that reads no data.  The
function is `const` in the header, so the handle state is returned
unchanged. -/
def emitReadBlock (s : DistributedImageBase) (filePos blockSize : Vec3)
    (dataNeeded : Bool) : String × DistributedImageBase :=
  ( if dataNeeded then
      "readblock(" ++ s.name ++ ", " ++ s.readSource ++ ", " ++
        toString filePos.x ++ ", " ++ toString filePos.y ++ ", " ++ toString filePos.z ++ ", " ++
        toString blockSize.x ++ ", " ++ toString blockSize.y ++ ", " ++ toString blockSize.z ++ ", " ++
        s.dataTypeStr ++ ");"
    else
      "newimage(" ++ s.name ++ ", " ++ s.dataTypeStr ++ ", " ++
        toString blockSize.x ++ ", " ++ toString blockSize.y ++ ", " ++ toString blockSize.z ++ ");"
  , s )

end DistributedImageBase

namespace DistributedImage

open DistributedImageBase

/-- `DistributedImage<pixel_t>::setData`: `ensureSize(img.dimensions())`;
write `img` to `currentWriteTarget()` with the raw codec when the target name
ends in `".raw"` and the sequence codec otherwise; then `writeComplete()`.
Returns the new handle state and the new disk. -/
def setData (s : DistributedImageBase) (disk : Disk) (img : Image) :
    DistributedImageBase × Disk :=
  let s1 := DistributedImageBase.ensureSize s img.dims
  let disk1 :=
    if endsWith (currentWriteTarget s1) ".raw" then
      raw.write disk img (currentWriteTarget s1)
    else
      sequence.write disk img (currentWriteTarget s1)
  (DistributedImageBase.writeComplete s1, disk1)

/-- `DistributedImage<pixel_t>::readTo`: `img.ensureSize(dimensions())`; when
`isSavedToDisk()`, load the whole image from `currentReadSource()` with the
codec selected by the `".raw"` suffix test (an absent or wrong-format file is
an I/O error, `none`); otherwise the resized buffer is returned as is. -/
def readTo (s : DistributedImageBase) (disk : Disk) (img : Image) : Option Image :=
  let img1 := Image.ensureSize img s.dims
  if isSavedToDisk s then
    if endsWith (currentReadSource s) ".raw" then
      raw.read disk (currentReadSource s)
    else
      sequence.read disk (currentReadSource s)
  else
    some img1

end DistributedImage

/-- The public mutating operations of the handle, used to define the
reachable states. -/
inductive Op where
  | writeComplete
  | newWriteTarget
  | setReadSource (filename : String)
  | ensureSize (d : Vec3)
  | setData (img : Image)
deriving Repr

/-- Effect of one public operation on the handle state (`setData`'s effect on
the handle is `ensureSize` followed by `writeComplete`; the disk is not part
of the handle state). -/
def applyOp (s : DistributedImageBase) : Op → DistributedImageBase
  | Op.writeComplete => s.writeComplete
  | Op.newWriteTarget => s.newWriteTarget
  | Op.setReadSource f => s.setReadSource f
  | Op.ensureSize d => s.ensureSize d
  | Op.setData img => (s.ensureSize img.dims).writeComplete

/-- Run a list of public operations from a state. -/
def runOps (s : DistributedImageBase) (ops : List Op) : DistributedImageBase :=
  ops.foldl applyOp s

/-- A handle state is reachable when it is produced by one of the two
constructors followed by any sequence of public operations. -/
def Reachable (s : DistributedImageBase) : Prop :=
  ∃ (name : String) (w h d : Int) (dt src : String) (ops : List Op),
    s = runOps (DistributedImageBase.mk0 name w h d dt src) ops

namespace DistributedImageBase

/-- The write-target invariant: `writeTarget` is one of the two temp slots,
and the two temp slots are distinct non-empty paths. -/
def WriteTargetInv (s : DistributedImageBase) : Prop :=
  (s.writeTarget = s.tempFilename1 ∨ s.writeTarget = s.tempFilename2) ∧
  s.tempFilename1 ≠ s.tempFilename2 ∧
  s.tempFilename1 ≠ "" ∧ s.tempFilename2 ≠ ""

end DistributedImageBase

/-- A reachable handle state right after a commit: a no-source handle on
which `writeComplete()` was called. -/
def stateC1 : DistributedImageBase :=
  runOps (DistributedImageBase.mkNoSource "img" 1 1 1 "uint8") [Op.writeComplete]

/-- A freshly constructed no-source handle. -/
def stateC1w : DistributedImageBase :=
  DistributedImageBase.mkNoSource "imgw" 2 3 4 "uint16"

/-- A reachable handle state in which `readSource` and `writeTarget` are
distinct temp slots: commit then rotate. -/
def stateC3 : DistributedImageBase :=
  runOps (DistributedImageBase.mkNoSource "img3" 1 1 1 "uint8")
    [Op.writeComplete, Op.newWriteTarget]

/-- A no-source handle right after a commit (`readSource = writeTarget`). -/
def stateC3w : DistributedImageBase :=
  DistributedImageBase.writeComplete (DistributedImageBase.mkNoSource "img3w" 1 1 1 "uint8")

/-- A freshly constructed no-source handle for the rotation witness. -/
def stateC4w : DistributedImageBase :=
  DistributedImageBase.mkNoSource "img4" 1 1 1 "uint8"

/-- A freshly constructed no-source handle. -/
def stateC8 : DistributedImageBase :=
  DistributedImageBase.mkNoSource "img8" 1 1 1 "uint8"

/-- The same handle after a rotation: same name, read source and data type,
different write target. -/
def stateC8b : DistributedImageBase :=
  DistributedImageBase.newWriteTarget stateC8

/-- A freshly constructed no-source handle for the commit-alias witness. -/
def stateC9w : DistributedImageBase :=
  DistributedImageBase.mkNoSource "img9" 1 1 1 "uint8"

/-- A one-pixel image buffer. -/
def imgOne : Image := { dims := ⟨1, 1, 1⟩, data := [5] }

/-- A second one-pixel image buffer with different contents. -/
def imgTwo : Image := { dims := ⟨1, 1, 1⟩, data := [7] }

/-- First whole-image write generation: `setData` on a no-source handle over
an empty disk. -/
def runC2a : DistributedImageBase × Disk :=
  DistributedImage.setData (DistributedImageBase.mkNoSource "img2" 1 1 1 "uint8") [] imgOne

/-- The write target used as the destination during the second `setData`
call (after that call's own `ensureSize`). -/
def targetC2 : String :=
  DistributedImageBase.currentWriteTarget
    (DistributedImageBase.ensureSize runC2a.1 imgTwo.dims)

/-- Second whole-image write generation. -/
def runC2b : DistributedImageBase × Disk :=
  DistributedImage.setData runC2a.1 runC2a.2 imgTwo

/-!  Helper lemmas about the generated temp file names and the write-target
invariant maintained by every public operation. -/

theorem tempName_ne_plain (n : String) :
    "./tmp_images/" ++ n ++ "-1" ≠ "./tmp_images/" ++ n ++ "-2" := by
  intro hEq
  have h2 := congrArg String.data hEq
  simp [String.data_append] at h2

theorem tempName_ne_raw (n : String) :
    "./tmp_images/" ++ n ++ "-1" ++ ".raw" ≠ "./tmp_images/" ++ n ++ "-2" ++ ".raw" := by
  intro hEq
  have h2 := congrArg String.data hEq
  simp [String.data_append] at h2

theorem tempName_plain_ne_empty (n : String) (suffix : String) :
    "./tmp_images/" ++ n ++ suffix ≠ "" := by
  intro hEq
  have h2 := congrArg String.data hEq
  simp [String.data_append] at h2

theorem tempName_raw_ne_empty (n : String) (suffix extra : String) :
    "./tmp_images/" ++ n ++ suffix ++ extra ≠ "" := by
  intro hEq
  have h2 := congrArg String.data hEq
  simp [String.data_append] at h2

namespace DistributedImageBase

theorem writeTargetInv_createTempFilenames (s : DistributedImageBase) :
    WriteTargetInv (createTempFilenames s) := by
  by_cases hr : endsWith s.readSource ".raw" = true
  · rw [createTempFilenames, if_pos hr]
    exact ⟨Or.inl rfl, tempName_ne_raw s.name,
      tempName_raw_ne_empty s.name "-1" ".raw", tempName_raw_ne_empty s.name "-2" ".raw"⟩
  · rw [createTempFilenames, if_neg hr]
    exact ⟨Or.inl rfl, tempName_ne_plain s.name,
      tempName_plain_ne_empty s.name "-1", tempName_plain_ne_empty s.name "-2"⟩

theorem writeTargetInv_mk0 (name : String) (w h d : Int) (dt src : String) :
    WriteTargetInv (mk0 name w h d dt src) :=
  writeTargetInv_createTempFilenames _

theorem writeTargetInv_setReadSource (s : DistributedImageBase) (f : String)
    (hs : WriteTargetInv s) : WriteTargetInv (setReadSource s f) := hs

theorem writeTargetInv_writeComplete (s : DistributedImageBase)
    (hs : WriteTargetInv s) : WriteTargetInv (writeComplete s) := hs

theorem writeTargetInv_newWriteTarget (s : DistributedImageBase)
    (hs : WriteTargetInv s) : WriteTargetInv (newWriteTarget s) := by
  by_cases hw : s.writeTarget = s.tempFilename1
  · rw [newWriteTarget, if_pos hw]
    exact ⟨Or.inr rfl, hs.2⟩
  · rw [newWriteTarget, if_neg hw]
    exact ⟨Or.inl rfl, hs.2⟩

theorem writeTargetInv_ensureSize (s : DistributedImageBase) (d : Vec3)
    (hs : WriteTargetInv s) : WriteTargetInv (ensureSize s d) := by
  by_cases hd : s.dims = d
  · rw [ensureSize, if_pos hd]
    exact hs
  · rw [ensureSize, if_neg hd]
    exact writeTargetInv_createTempFilenames _

theorem writeTargetInv_applyOp (s : DistributedImageBase) (op : Op)
    (hs : WriteTargetInv s) : WriteTargetInv (applyOp s op) := by
  cases op with
  | writeComplete => exact writeTargetInv_writeComplete s hs
  | newWriteTarget => exact writeTargetInv_newWriteTarget s hs
  | setReadSource f => exact writeTargetInv_setReadSource s f hs
  | ensureSize d => exact writeTargetInv_ensureSize s d hs
  | setData img =>
      exact writeTargetInv_writeComplete _ (writeTargetInv_ensureSize s img.dims hs)

theorem writeTargetInv_runOps (s : DistributedImageBase) (ops : List Op)
    (hs : WriteTargetInv s) : WriteTargetInv (runOps s ops) := by
  induction ops generalizing s with
  | nil => exact hs
  | cons op rest ih => exact ih _ (writeTargetInv_applyOp s op hs)

theorem writeTargetInv_reachable (s : DistributedImageBase)
    (hs : Reachable s) : WriteTargetInv s := by
  obtain ⟨name, w, h, d, dt, src, ops, hEq⟩ := hs
  rw [hEq]
  exact writeTargetInv_runOps _ ops (writeTargetInv_mk0 name w h d dt src)

/-- `writeComplete` rebinds `readSource` to the current `writeTarget` and
leaves `writeTarget` itself unchanged. -/
theorem writeComplete_fields (s : DistributedImageBase) :
    (writeComplete s).readSource = s.writeTarget ∧
    (writeComplete s).writeTarget = s.writeTarget ∧
    (writeComplete s).tempFilename1 = s.tempFilename1 ∧
    (writeComplete s).tempFilename2 = s.tempFilename2 :=
  ⟨rfl, rfl, rfl, rfl⟩

/-- `setData`'s effect on the handle state: `ensureSize` to the buffer's
dimensions followed by `writeComplete`. -/
theorem setData_fst (s : DistributedImageBase) (disk : Disk) (buf : Image) :
    (DistributedImage.setData s disk buf).1 = writeComplete (ensureSize s buf.dims) := rfl

/-- `setData`'s effect on the disk: the buffer is persisted at the current
write target, with the codec selected by the `".raw"` suffix test. -/
theorem setData_snd (s : DistributedImageBase) (disk : Disk) (buf : Image) :
    (DistributedImage.setData s disk buf).2 =
      if endsWith (ensureSize s buf.dims).writeTarget ".raw" then
        raw.write disk buf (ensureSize s buf.dims).writeTarget
      else
        sequence.write disk buf (ensureSize s buf.dims).writeTarget := rfl

/-- After `writeComplete`, `isNewImage` is false as soon as the promoted
write target is a non-empty path. -/
theorem writeComplete_isNewImage (s : DistributedImageBase) :
    (writeComplete s).isNewImage =
      if s.writeTarget = "" then s.isNewImage else false := rfl

/-- Looking up a path just written finds the written content. -/
theorem find_cons_self (p : String) (v : FileData) (rest : Disk) :
    Disk.find ((p, v) :: rest) p = some v := by
  rw [Disk.find, if_pos rfl]

/-- On a handle whose data is saved to disk, `readTo` defers to the codec
selected by the read source's `".raw"` suffix test. -/
theorem readTo_of_notNew (s : DistributedImageBase) (disk : Disk) (out : Image)
    (hnew : s.isNewImage = false) :
    DistributedImage.readTo s disk out =
      if endsWith s.readSource ".raw" then raw.read disk s.readSource
      else sequence.read disk s.readSource := by
  rw [DistributedImage.readTo]
  rw [show isSavedToDisk s = true by rw [isSavedToDisk, hnew]; rfl]
  rw [if_pos rfl]
  rfl

/-- The disk after `setData` holds the written buffer at the write target,
in the format selected by the target's name. -/
theorem setData_find (s : DistributedImageBase) (disk : Disk) (buf : Image) :
    Disk.find (DistributedImage.setData s disk buf).2
        (currentWriteTarget (ensureSize s buf.dims)) =
      some (if endsWith (currentWriteTarget (ensureSize s buf.dims)) ".raw"
            then FileData.raw buf else FileData.seq buf) := by
  simp only [currentWriteTarget]
  rw [setData_snd]
  by_cases hr : endsWith (ensureSize s buf.dims).writeTarget ".raw" = true
  · rw [if_pos hr, if_pos hr, raw.write, find_cons_self]
  · rw [if_neg hr, if_neg hr, sequence.write, find_cons_self]

end DistributedImageBase

open DistributedImageBase

/-- C1 as stated is false: `stateC1` is a reachable state (a no-source
handle right after `writeComplete()`) whose `readSource` is a temp slot yet
`currentWriteTarget()` equals `currentReadSource()` — the commit promotes the
read source onto the very slot the write target still occupies, so the
claimed non-aliasing `currentWriteTarget() != currentReadSource()` fails. -/
theorem C1_counterexample :
    Reachable stateC1 ∧ savedToTemp stateC1 = true ∧
    currentWriteTarget stateC1 = currentReadSource stateC1 :=
  ⟨⟨"img", 1, 1, 1, "uint8", "", [Op.writeComplete], rfl⟩, by decide, by decide⟩

/-- C1 (amended): for every reachable handle state, `writeTarget` is exactly
one of the two distinct temp locations; `writeComplete()` leaves
`writeTarget` unchanged, and immediately after `writeComplete()` the write
target and the read source coincide (the non-aliasing of the claim is not
established by the commit itself). -/
theorem C1_amended (s : DistributedImageBase) (h : Reachable s) :
    (s.writeTarget = s.tempFilename1 ∨ s.writeTarget = s.tempFilename2) ∧
    s.tempFilename1 ≠ s.tempFilename2 ∧
    (writeComplete s).writeTarget = s.writeTarget ∧
    currentReadSource (writeComplete s) = currentWriteTarget (writeComplete s) := by
  have hInv := writeTargetInv_reachable s h
  exact ⟨hInv.1, hInv.2.1, rfl, rfl⟩

/-- Witness for C1 (amended) at a concrete reachable state. -/
theorem C1_amended_witness :
    (stateC1w.writeTarget = stateC1w.tempFilename1 ∨
      stateC1w.writeTarget = stateC1w.tempFilename2) ∧
    stateC1w.tempFilename1 ≠ stateC1w.tempFilename2 ∧
    (writeComplete stateC1w).writeTarget = stateC1w.writeTarget ∧
    currentReadSource (writeComplete stateC1w) =
      currentWriteTarget (writeComplete stateC1w) :=
  C1_amended stateC1w ⟨"imgw", 2, 3, 4, "uint16", "", [], rfl⟩

/-- C3 as stated is false: `stateC3` is a reachable state in which both
`readSource` and `writeTarget` are temp slots, yet `newWriteTarget()` selects
the read source's slot — after the call `currentWriteTarget()` equals
`currentReadSource()`.  The swap consults only the current `writeTarget`,
never `readSource`. -/
theorem C3_counterexample :
    Reachable stateC3 ∧
    savedToTemp stateC3 = true ∧
    (stateC3.writeTarget = stateC3.tempFilename1 ∨
      stateC3.writeTarget = stateC3.tempFilename2) ∧
    currentWriteTarget (newWriteTarget stateC3) = currentReadSource stateC3 ∧
    currentReadSource (newWriteTarget stateC3) = currentReadSource stateC3 :=
  ⟨⟨"img3", 1, 1, 1, "uint8", "", [Op.writeComplete, Op.newWriteTarget], rfl⟩,
   by decide, Or.inr (by decide), by decide, rfl⟩

/-- C3 (amended): `newWriteTarget()` swaps `writeTarget` between the two
temp slots based on the current `writeTarget` alone — it selects the slot
that differs from the current `writeTarget`, not from `readSource`; only
when `readSource` equals `writeTarget` (the state `writeComplete()`
establishes) is the selected slot guaranteed to differ from the read
source. -/
theorem C3_amended (s : DistributedImageBase) :
    ((s.writeTarget = s.tempFilename1 →
        (newWriteTarget s).writeTarget = s.tempFilename2) ∧
     (s.writeTarget ≠ s.tempFilename1 →
        (newWriteTarget s).writeTarget = s.tempFilename1)) ∧
    (s.readSource = s.writeTarget → s.tempFilename1 ≠ s.tempFilename2 →
      currentWriteTarget (newWriteTarget s) ≠ currentReadSource s) := by
  refine ⟨⟨fun h1 => ?_, fun h1 => ?_⟩, fun hrs hne => ?_⟩
  · rw [newWriteTarget, if_pos h1]
  · rw [newWriteTarget, if_neg h1]
  · by_cases h1 : s.writeTarget = s.tempFilename1
    · rw [newWriteTarget, if_pos h1]
      show s.tempFilename2 ≠ s.readSource
      rw [hrs, h1]
      exact fun hEq => hne hEq.symm
    · rw [newWriteTarget, if_neg h1]
      show s.tempFilename1 ≠ s.readSource
      rw [hrs]
      exact fun hEq => h1 hEq.symm

/-- Witness for C3 (amended) at a concrete committed state. -/
theorem C3_amended_witness :
    (newWriteTarget stateC3w).writeTarget = stateC3w.tempFilename2 ∧
    currentWriteTarget (newWriteTarget stateC3w) ≠ currentReadSource stateC3w :=
  ⟨(C3_amended stateC3w).1.1 (by decide),
   (C3_amended stateC3w).2 (by decide) (by decide)⟩

/-- C4: whenever `writeTarget` is one of the two temp slots, the first
`newWriteTarget()` call yields the complement of its pre-call value
(`tempFilename1 ↦ tempFilename2` and `tempFilename2 ↦ tempFilename1`) and a
second call restores the original value — the composition of two calls is
the identity on `writeTarget`. -/
theorem C4_doubleSwap (s : DistributedImageBase)
    (h : s.writeTarget = s.tempFilename1 ∨ s.writeTarget = s.tempFilename2) :
    ((s.writeTarget = s.tempFilename1 →
        (newWriteTarget s).writeTarget = s.tempFilename2) ∧
     (s.writeTarget = s.tempFilename2 →
        (newWriteTarget s).writeTarget = s.tempFilename1)) ∧
    (newWriteTarget (newWriteTarget s)).writeTarget = s.writeTarget := by
  by_cases h1 : s.writeTarget = s.tempFilename1
  · have e1 : newWriteTarget s = { s with writeTarget := s.tempFilename2 } := by
      rw [newWriteTarget, if_pos h1]
    by_cases h2 : s.tempFilename2 = s.tempFilename1
    · have e2 : newWriteTarget (newWriteTarget s) =
          { s with writeTarget := s.tempFilename2 } := by
        rw [e1, newWriteTarget, if_pos h2]
      refine ⟨⟨fun _ => by rw [e1], fun _ => by rw [e1, h2]⟩, ?_⟩
      rw [e2, h1]
      exact h2
    · have e2 : newWriteTarget (newWriteTarget s) =
          { s with writeTarget := s.tempFilename1 } := by
        rw [e1, newWriteTarget, if_neg h2]
      refine ⟨⟨fun _ => by rw [e1],
        fun hw2 => absurd (hw2.symm.trans h1) h2⟩, ?_⟩
      rw [e2, h1]
  · have hw2 : s.writeTarget = s.tempFilename2 := h.resolve_left h1
    have e1 : newWriteTarget s = { s with writeTarget := s.tempFilename1 } := by
      rw [newWriteTarget, if_neg h1]
    have e2 : newWriteTarget (newWriteTarget s) =
        { s with writeTarget := s.tempFilename2 } := by
      rw [e1, newWriteTarget, if_pos rfl]
    refine ⟨⟨fun hc => absurd hc h1, fun _ => by rw [e1]⟩, ?_⟩
    rw [e2, hw2]

/-- Witness for C4 at a freshly constructed handle (`writeTarget` is the
first temp slot). -/
theorem C4_doubleSwap_witness :
    ((stateC4w.writeTarget = stateC4w.tempFilename1 →
        (newWriteTarget stateC4w).writeTarget = stateC4w.tempFilename2) ∧
     (stateC4w.writeTarget = stateC4w.tempFilename2 →
        (newWriteTarget stateC4w).writeTarget = stateC4w.tempFilename1)) ∧
    (newWriteTarget (newWriteTarget stateC4w)).writeTarget = stateC4w.writeTarget :=
  C4_doubleSwap stateC4w (Or.inl (by decide))

/-- C9: immediately after every `writeComplete()` call — and at the end of
every `setData` call, which never rotates the write target — the current
read source equals the current write target; the non-aliasing between read
and write locations is re-established by a subsequent `newWriteTarget()`
call. -/
theorem C9_commitAliases (s : DistributedImageBase) (disk : Disk) (img : Image)
    (h1 : s.tempFilename1 ≠ s.tempFilename2)
    (h2 : s.writeTarget = s.tempFilename1 ∨ s.writeTarget = s.tempFilename2) :
    currentReadSource (writeComplete s) = currentWriteTarget (writeComplete s) ∧
    currentReadSource (DistributedImage.setData s disk img).1 =
      currentWriteTarget (DistributedImage.setData s disk img).1 ∧
    currentWriteTarget (newWriteTarget (writeComplete s)) ≠
      currentReadSource (newWriteTarget (writeComplete s)) := by
  refine ⟨rfl, rfl, ?_⟩
  by_cases hw : s.writeTarget = s.tempFilename1
  · rw [newWriteTarget,
      if_pos (show (writeComplete s).writeTarget = (writeComplete s).tempFilename1 from hw)]
    show s.tempFilename2 ≠ s.writeTarget
    rw [hw]
    exact fun hEq => h1 hEq.symm
  · rw [newWriteTarget,
      if_neg (show ¬(writeComplete s).writeTarget = (writeComplete s).tempFilename1 from hw)]
    show s.tempFilename1 ≠ s.writeTarget
    have hw2 : s.writeTarget = s.tempFilename2 := h2.resolve_left hw
    rw [hw2]
    exact h1

/-- Witness for C9 at a freshly constructed handle and a one-pixel write. -/
theorem C9_commitAliases_witness :
    currentReadSource (writeComplete stateC9w) =
      currentWriteTarget (writeComplete stateC9w) ∧
    currentReadSource (DistributedImage.setData stateC9w [] imgOne).1 =
      currentWriteTarget (DistributedImage.setData stateC9w [] imgOne).1 ∧
    currentWriteTarget (newWriteTarget (writeComplete stateC9w)) ≠
      currentReadSource (newWriteTarget (writeComplete stateC9w)) :=
  C9_commitAliases stateC9w [] imgOne (by decide) (Or.inl (by decide))

/-- C10: whenever `currentReadSource()` is the empty string — in particular
for a handle constructed without a source file, before any completed write —
`isRaw()` returns false and `isSequence()` returns true: the format queries
classify an unset read source as sequence format. -/
theorem C10_emptyReadSource (s : DistributedImageBase) (nm : String)
    (w h d : Int) (dt : String) (hs : currentReadSource s = "") :
    isRaw s = false ∧ isSequence s = true ∧
    currentReadSource (mkNoSource nm w h d dt) = "" ∧
    isRaw (mkNoSource nm w h d dt) = false ∧
    isSequence (mkNoSource nm w h d dt) = true := by
  have hraw : isRaw s = false := by
    rw [isRaw, hs]
    rfl
  exact ⟨hraw, by rw [isSequence, hraw]; rfl, rfl, rfl, rfl⟩

/-- Witness for C10 at a concrete no-source handle. -/
theorem C10_emptyReadSource_witness :
    isRaw (mkNoSource "imgA" 1 1 1 "uint8") = false ∧
    isSequence (mkNoSource "imgA" 1 1 1 "uint8") = true ∧
    currentReadSource (mkNoSource "imgB" 5 6 7 "float32") = "" ∧
    isRaw (mkNoSource "imgB" 5 6 7 "float32") = false ∧
    isSequence (mkNoSource "imgB" 5 6 7 "float32") = true :=
  C10_emptyReadSource (mkNoSource "imgA" 1 1 1 "uint8") "imgB" 5 6 7 "float32"
    (by decide)

/-- C2 as stated is false: after the second of two consecutive `setData`
calls on a no-source handle, the observed `readSource` EQUALS the write
target that served as the destination of that second call's write —
`setData` never rotates the target, so the claimed inequality fails (while
`readSource` does equal the file written by the second call). -/
theorem C2_counterexample :
    currentReadSource runC2b.1 = targetC2 ∧
    savedToTemp runC2b.1 = true := by decide

/-- C2 (amended): after `setData` is called twice in sequence on a no-source
handle, `readSource` equals exactly the file written by the second call —
which is the same path as the write target used as that call's destination —
and the disk holds the second buffer at that path, in the format selected by
the path's name. -/
theorem C2_amended (nm : String) (w h d : Int) (dt : String) (disk : Disk)
    (buf1 buf2 : Image) :
    currentReadSource (DistributedImage.setData
        (DistributedImage.setData (mkNoSource nm w h d dt) disk buf1).1
        (DistributedImage.setData (mkNoSource nm w h d dt) disk buf1).2 buf2).1 =
      currentWriteTarget (ensureSize
        (DistributedImage.setData (mkNoSource nm w h d dt) disk buf1).1 buf2.dims) ∧
    Disk.find (DistributedImage.setData
        (DistributedImage.setData (mkNoSource nm w h d dt) disk buf1).1
        (DistributedImage.setData (mkNoSource nm w h d dt) disk buf1).2 buf2).2
        (currentWriteTarget (ensureSize
          (DistributedImage.setData (mkNoSource nm w h d dt) disk buf1).1 buf2.dims)) =
      some (if endsWith (currentWriteTarget (ensureSize
              (DistributedImage.setData (mkNoSource nm w h d dt) disk buf1).1 buf2.dims)) ".raw"
            then FileData.raw buf2 else FileData.seq buf2) :=
  ⟨rfl, setData_find _ _ buf2⟩

/-- C5: for any handle state whose (post-`ensureSize`) write target is a
non-empty path — in particular for a handle constructed with no source file,
and regardless of whether that target is raw-format or sequence-format —
`setData(buf)` followed by `readTo(out)` yields exactly `buf`, under the
faithful-codec disk model. -/
theorem C5_roundTrip (s : DistributedImageBase) (disk : Disk) (buf out : Image)
    (hW : currentWriteTarget (ensureSize s buf.dims) ≠ "") :
    DistributedImage.readTo (DistributedImage.setData s disk buf).1
      (DistributedImage.setData s disk buf).2 out = some buf := by
  rw [setData_fst, setData_snd]
  rw [readTo_of_notNew]
  · have hrs : (writeComplete (ensureSize s buf.dims)).readSource =
        (ensureSize s buf.dims).writeTarget := rfl
    rw [hrs]
    by_cases hr : endsWith (ensureSize s buf.dims).writeTarget ".raw" = true
    · rw [if_pos hr, if_pos hr]
      rw [raw.write, raw.read, find_cons_self]
    · rw [if_neg hr, if_neg hr]
      rw [sequence.write, sequence.read, find_cons_self]
  · have hW2 : (ensureSize s buf.dims).writeTarget ≠ "" := hW
    rw [writeComplete_isNewImage, if_neg hW2]

/-- Witness for C5 at a concrete no-source handle (sequence-format backing),
a concrete buffer and a differing output buffer. -/
theorem C5_roundTrip_witness :
    DistributedImage.readTo
        (DistributedImage.setData (mkNoSource "img5" 1 1 1 "uint8") [] imgOne).1
        (DistributedImage.setData (mkNoSource "img5" 1 1 1 "uint8") [] imgOne).2
        imgTwo = some imgOne :=
  C5_roundTrip (mkNoSource "img5" 1 1 1 "uint8") [] imgOne imgTwo (by decide)

/-- C6: `setData(buffer)` equals `ensureSize(buffer.dimensions())`, then a
write of the buffer's full contents to the current write target — with the
raw codec iff the target's name ends with `".raw"`, the sequence codec
otherwise — then `writeComplete()`; consequently `currentReadSource()`
afterwards equals the file just written, and the disk holds the buffer
there. -/
theorem C6_setData_steps (s : DistributedImageBase) (disk : Disk) (img : Image) :
    DistributedImage.setData s disk img =
      (writeComplete (ensureSize s img.dims),
       if endsWith (currentWriteTarget (ensureSize s img.dims)) ".raw" then
         raw.write disk img (currentWriteTarget (ensureSize s img.dims))
       else
         sequence.write disk img (currentWriteTarget (ensureSize s img.dims))) ∧
    currentReadSource (DistributedImage.setData s disk img).1 =
      currentWriteTarget (ensureSize s img.dims) ∧
    Disk.find (DistributedImage.setData s disk img).2
        (currentWriteTarget (ensureSize s img.dims)) =
      some (if endsWith (currentWriteTarget (ensureSize s img.dims)) ".raw"
            then FileData.raw img else FileData.seq img) :=
  ⟨rfl, rfl, setData_find s disk img⟩

/-- C7: `isSavedToDisk()` returns the negation of the `isNewImage` flag; it
is false immediately after no-source construction, and true after one
completed write — whole-image `setData` or `writeComplete()` after block
writes — because `setReadSource` sets `isNewImage` to false once a non-empty
source path is bound. -/
theorem C7_isSavedToDisk (nm : String) (w h d : Int) (dt : String)
    (disk : Disk) (img : Image) :
    (∀ s : DistributedImageBase, isSavedToDisk s = !s.isNewImage) ∧
    isSavedToDisk (mkNoSource nm w h d dt) = false ∧
    isSavedToDisk (writeComplete (mkNoSource nm w h d dt)) = true ∧
    isSavedToDisk (DistributedImage.setData (mkNoSource nm w h d dt) disk img).1 = true ∧
    (∀ (s : DistributedImageBase) (f : String), f ≠ "" →
      (setReadSource s f).isNewImage = false) := by
  have h3 : (writeComplete (mkNoSource nm w h d dt)).isNewImage = false := by
    rw [writeComplete_isNewImage]
    have hwt : (mkNoSource nm w h d dt).writeTarget = "./tmp_images/" ++ nm ++ "-1" := rfl
    rw [hwt, if_neg (tempName_plain_ne_empty nm "-1")]
  have h4wt : (ensureSize (mkNoSource nm w h d dt) img.dims).writeTarget =
      "./tmp_images/" ++ nm ++ "-1" := by
    by_cases hd2 : (mkNoSource nm w h d dt).dims = img.dims
    · rw [ensureSize, if_pos hd2]
      rfl
    · rw [ensureSize, if_neg hd2]
      rfl
  refine ⟨fun s => rfl, rfl, ?_, ?_, ?_⟩
  · rw [isSavedToDisk, h3]
    rfl
  · rw [setData_fst, isSavedToDisk, writeComplete_isNewImage, h4wt,
      if_neg (tempName_plain_ne_empty nm "-1")]
    rfl
  · intro s f hf
    simp only [setReadSource]
    rw [if_neg hf]

/-- Witness for C7 at a concrete handle, write and non-empty path. -/
theorem C7_isSavedToDisk_witness :
    isSavedToDisk (mkNoSource "img7" 1 1 1 "uint8") = false ∧
    isSavedToDisk (writeComplete (mkNoSource "img7" 1 1 1 "uint8")) = true ∧
    isSavedToDisk (DistributedImage.setData (mkNoSource "img7" 1 1 1 "uint8") [] imgOne).1 = true ∧
    (setReadSource (mkNoSource "img7" 1 1 1 "uint8") "ext.raw").isNewImage = false :=
  ⟨(C7_isSavedToDisk "img7" 1 1 1 "uint8" [] imgOne).2.1,
   (C7_isSavedToDisk "img7" 1 1 1 "uint8" [] imgOne).2.2.1,
   (C7_isSavedToDisk "img7" 1 1 1 "uint8" [] imgOne).2.2.2.1,
   (C7_isSavedToDisk "img7" 1 1 1 "uint8" [] imgOne).2.2.2.2 _ "ext.raw" (by decide)⟩

/-- C8: `emitReadBlock(filePos, blockSize, dataNeeded)` is deterministic —
any two handle states agreeing on the fields the instruction references
(name, read source, data type) produce the same instruction string for equal
arguments, so two runs of the same call coincide — and the call never
mutates any field of the handle (it is `const` in the source). -/
theorem C8_emitReadBlock (s1 s2 : DistributedImageBase) (filePos blockSize : Vec3)
    (dataNeeded : Bool) (hn : s1.name = s2.name)
    (hr : currentReadSource s1 = currentReadSource s2)
    (hd : s1.dataTypeStr = s2.dataTypeStr) :
    (emitReadBlock s1 filePos blockSize dataNeeded).1 =
      (emitReadBlock s2 filePos blockSize dataNeeded).1 ∧
    (emitReadBlock s1 filePos blockSize dataNeeded).2 = s1 := by
  refine ⟨?_, rfl⟩
  simp only [currentReadSource] at hr
  simp only [emitReadBlock]
  rw [hn, hd, hr]

/-- Witness for C8: two states of the same handle before and after a
rotation (equal name, read source and data type, different write target)
yield the same read-block instruction, and the state is unchanged. -/
theorem C8_emitReadBlock_witness :
    (emitReadBlock stateC8 ⟨0, 0, 0⟩ ⟨1, 1, 1⟩ true).1 =
      (emitReadBlock stateC8b ⟨0, 0, 0⟩ ⟨1, 1, 1⟩ true).1 ∧
    (emitReadBlock stateC8 ⟨0, 0, 0⟩ ⟨1, 1, 1⟩ true).2 = stateC8 :=
  C8_emitReadBlock stateC8 stateC8b ⟨0, 0, 0⟩ ⟨1, 1, 1⟩ true (by decide) (by decide)
    (by decide)

end pilib
